import Mathlib

/-!
Verification of the curl_impersonate shim
(src/native/curl_impersonate_shim/curl_impersonate_shim.c) and of the
specification's core design components (Identity Profile Registry,
Multi-Transfer Scheduler).

Shallow embedding conventions for the C shim:
- Opaque pointers (CURL*, CURLM*, curl_slist*, callback pointers) are
  modelled as Nat values; a nullable pointer argument is Option Nat with
  none standing for NULL.
- CURLcode / CURLMcode / CURLoption / CURLINFO enum values are Nat;
  C long and int scalars are Int where signedness matters.
- The wrapped libcurl functions are opaque: a CurlApi structure holds one
  abstract function per wrapped symbol, and each bsn_* export is defined
  over an arbitrary CurlApi exactly as the C source forwards.
- Caller memory reachable through the shim's typed out-pointers is a Heap
  with one store per C type actually written through (int, CURL*,
  CURLcode).  The only wrapped call whose documented out-write the shim
  semantics must expose is curl_multi_info_read's write of
  *msgs_in_queue; it is part of the opaque call, performed before the
  shim's own conditional stores, as in the C source.
-/

/-- Caller-visible memory written through the shim's typed out-pointers:
one store per pointee type (int, CURL pointer, CURLcode). -/
structure Heap where
  ints : Nat → Int
  ptrs : Nat → Nat
  codes : Nat → Nat

/-- Store an int through a possibly-NULL int pointer. -/
def writeInt (h : Heap) (p : Option Nat) (v : Int) : Heap :=
  match p with
  | none => h
  | some a => { h with ints := fun x => if x = a then v else h.ints x }

/-- Store a CURL pointer through a possibly-NULL pointer slot. -/
def writePtr (h : Heap) (p : Option Nat) (v : Nat) : Heap :=
  match p with
  | none => h
  | some a => { h with ptrs := fun x => if x = a then v else h.ptrs x }

/-- Store a CURLcode through a possibly-NULL pointer slot. -/
def writeCode (h : Heap) (p : Option Nat) (v : Nat) : Heap :=
  match p with
  | none => h
  | some a => { h with codes := fun x => if x = a then v else h.codes x }

/-- The CURLMsg record returned by curl_multi_info_read: the message kind
(the CURLMSG enum), the easy handle it concerns, and data.result. -/
structure CURLMsg where
  msg : Nat
  easy_handle : Nat
  result : Nat
deriving DecidableEq

/-- The value argument of curl_easy_setopt, tagged by the C type each of
the five typed shim wrappers passes. -/
inductive SetoptArg
  | ofLong (v : Int)
  | ofPtr (p : Option Nat)
  | ofStr (s : Option String)
  | ofWriteCallback (f : Nat)
  | ofXferinfoCallback (f : Nat)
deriving DecidableEq

/-- The wrapped libcurl surface, one opaque function per curl_* symbol the
shim calls.  curl_multi_info_read is modelled by the message it yields for
a multi handle together with the count it writes to *msgs_in_queue. -/
structure CurlApi where
  curl_global_init : Int → Nat
  curl_easy_init : Nat
  curl_easy_cleanup : Nat → Unit
  curl_easy_reset : Nat → Unit
  curl_easy_setopt : Nat → Nat → SetoptArg → Nat
  curl_easy_perform : Nat → Nat
  curl_easy_getinfo : Nat → Nat → Option Nat → Nat
  curl_easy_strerror : Nat → String
  curl_slist_append : Option Nat → Option String → Option Nat
  curl_slist_free_all : Option Nat → Unit
  curl_easy_impersonate : Nat → Option String → Int → Nat
  curl_multi_init : Nat
  curl_multi_cleanup : Nat → Nat
  curl_multi_add_handle : Nat → Nat → Nat
  curl_multi_remove_handle : Nat → Nat → Nat
  curl_multi_perform : Nat → Option Nat → Nat
  curl_multi_poll : Nat → Option Nat → Nat → Int → Option Nat → Nat
  curl_multi_info_read : Nat → Option CURLMsg × Int
  curl_multi_wakeup : Nat → Nat
  curl_multi_strerror : Nat → String

def bsn_curl_global_init (api : CurlApi) (flags : Int) : Nat :=
  api.curl_global_init flags

def bsn_curl_easy_init (api : CurlApi) : Nat :=
  api.curl_easy_init

def bsn_curl_easy_cleanup (api : CurlApi) (easy_handle : Nat) : Unit :=
  api.curl_easy_cleanup easy_handle

def bsn_curl_easy_reset (api : CurlApi) (easy_handle : Nat) : Unit :=
  api.curl_easy_reset easy_handle

def bsn_curl_easy_setopt_long (api : CurlApi) (easy_handle option : Nat)
    (value : Int) : Nat :=
  api.curl_easy_setopt easy_handle option (.ofLong value)

def bsn_curl_easy_setopt_ptr (api : CurlApi) (easy_handle option : Nat)
    (value : Option Nat) : Nat :=
  api.curl_easy_setopt easy_handle option (.ofPtr value)

def bsn_curl_easy_setopt_str (api : CurlApi) (easy_handle option : Nat)
    (value : Option String) : Nat :=
  api.curl_easy_setopt easy_handle option (.ofStr value)

def bsn_curl_easy_setopt_write_callback (api : CurlApi)
    (easy_handle option callback : Nat) : Nat :=
  api.curl_easy_setopt easy_handle option (.ofWriteCallback callback)

def bsn_curl_easy_setopt_xferinfo_callback (api : CurlApi)
    (easy_handle option callback : Nat) : Nat :=
  api.curl_easy_setopt easy_handle option (.ofXferinfoCallback callback)

def bsn_curl_easy_perform (api : CurlApi) (easy_handle : Nat) : Nat :=
  api.curl_easy_perform easy_handle

def bsn_curl_easy_getinfo_long (api : CurlApi) (easy_handle info : Nat)
    (value : Option Nat) : Nat :=
  api.curl_easy_getinfo easy_handle info value

def bsn_curl_easy_strerror (api : CurlApi) (code : Nat) : String :=
  api.curl_easy_strerror code

def bsn_curl_slist_append (api : CurlApi) (list : Option Nat)
    (header : Option String) : Option Nat :=
  api.curl_slist_append list header

def bsn_curl_slist_free_all (api : CurlApi) (list : Option Nat) : Unit :=
  api.curl_slist_free_all list

def bsn_curl_easy_impersonate (api : CurlApi) (easy_handle : Nat)
    (target : Option String) (default_headers : Int) : Nat :=
  api.curl_easy_impersonate easy_handle target default_headers

def bsn_curl_multi_init (api : CurlApi) : Nat :=
  api.curl_multi_init

def bsn_curl_multi_cleanup (api : CurlApi) (multi_handle : Nat) : Nat :=
  api.curl_multi_cleanup multi_handle

def bsn_curl_multi_add_handle (api : CurlApi) (multi_handle easy_handle : Nat) : Nat :=
  api.curl_multi_add_handle multi_handle easy_handle

def bsn_curl_multi_remove_handle (api : CurlApi) (multi_handle easy_handle : Nat) : Nat :=
  api.curl_multi_remove_handle multi_handle easy_handle

def bsn_curl_multi_perform (api : CurlApi) (multi_handle : Nat)
    (running_handles : Option Nat) : Nat :=
  api.curl_multi_perform multi_handle running_handles

def bsn_curl_multi_poll (api : CurlApi) (multi_handle : Nat)
    (timeout_ms : Int) (numfds : Option Nat) : Nat :=
  api.curl_multi_poll multi_handle none 0 timeout_ms numfds

def bsn_curl_multi_info_read (api : CurlApi) (multi_handle : Nat)
    (msgs_in_queue msg easy_handle result : Option Nat) (h : Heap) :
    Int × Heap :=
  let message := (api.curl_multi_info_read multi_handle).1
  let h0 := writeInt h msgs_in_queue (api.curl_multi_info_read multi_handle).2
  match message with
  | none => (0, h0)
  | some m =>
      let h1 := writeInt h0 msg (Int.ofNat m.msg)
      let h2 := writePtr h1 easy_handle m.easy_handle
      let h3 := writeCode h2 result m.result
      (1, h3)

def bsn_curl_multi_wakeup (api : CurlApi) (multi_handle : Nat) : Nat :=
  api.curl_multi_wakeup multi_handle

def bsn_curl_multi_strerror (api : CurlApi) (code : Nat) : String :=
  api.curl_multi_strerror code

/-!
Spec-modelled components.  The repository's source is only the C shim; the
Identity Profile Registry and the Multi-Transfer Scheduler exist only in
the specification's design (sections 4.1 and 4.4).  They are modelled here
from the spec's words.
-/

/-- Modelled from the spec: IdentityProfile record of section 3 (name,
cipher suite order, extension order, ALPN list, default header template),
for the Identity Profile Registry that is absent from src. -/
structure IdentityProfile where
  name : String
  tlsCipherSuites : List Nat
  tlsExtensionOrder : List Nat
  alpnProtocols : List String
  defaultHeaders : List (String × String)
deriving DecidableEq

/-- Modelled from the spec: the registry error taxonomy of sections 4.1
and 7 relevant to register and lookup. -/
inductive RegistryError
  | DuplicateProfile
  | UnknownProfile
deriving DecidableEq

/-- Modelled from the spec: the process-wide registry, a collection of
profiles with unique names, in registration order. -/
abbrev Registry : Type := List IdentityProfile

/-- Modelled from the spec: register(profile) fails with DuplicateProfile
if the name exists, otherwise adds the profile. -/
def Registry.register (r : Registry) (p : IdentityProfile) :
    Except RegistryError Registry :=
  if (List.any r fun q => q.name == p.name) then
    .error .DuplicateProfile
  else
    .ok (r ++ [p])

/-- Modelled from the spec: lookup(name) returns the profile or fails with
UnknownProfile. -/
def Registry.lookup (r : Registry) (n : String) :
    Except RegistryError IdentityProfile :=
  match List.find? (fun q => q.name == n) r with
  | some p => .ok p
  | none => .error .UnknownProfile

/-- Modelled from the spec: CompletionRecord of section 3 (handleId,
resultCode, errorDetail or none). -/
structure CompletionRecord where
  handleId : Nat
  resultCode : Nat
  errorDetail : Option String
deriving DecidableEq

/-- Modelled from the spec: the Multi-Transfer Scheduler state that the
drain-ordering claims need, absent from src.  inFlight is the
SchedulerSet of handle ids currently in flight; completed is the queue of
CompletionRecords accumulated since the last drain, in readiness-detection
order. -/
structure SchedulerState where
  inFlight : List Nat
  completed : List CompletionRecord
deriving DecidableEq

/-- Modelled from the spec: the handles of one pumpOnce or wait round that
became ready, in ascending handle-id order (the tie-break of section 4.4
for handles that become ready simultaneously). -/
def readyThisRound (s : SchedulerState) (ready : List Nat) : List Nat :=
  List.insertionSort (fun a b => a ≤ b)
    (List.filter (fun i => decide (i ∈ ready)) s.inFlight)

/-- Modelled from the spec: one pumpOnce or wait round of the Scheduler.
The fake transport reports the set of handles whose readiness fired this
round and the terminal result of each; the round moves those handles out
of the in-flight set and appends their CompletionRecords to the completion
queue, simultaneous completions in ascending handle-id order. -/
def pumpOnce (results : Nat → Nat × Option String) (ready : List Nat)
    (s : SchedulerState) : SchedulerState :=
  { inFlight := List.filter (fun i => decide (i ∉ ready)) s.inFlight,
    completed := s.completed ++
      List.map (fun i => ⟨i, (results i).1, (results i).2⟩)
        (readyThisRound s ready) }

/-- Modelled from the spec: drainCompletions returns and removes all
handles that reached a terminal state since the last drain, in completion
order. -/
def drainCompletions (s : SchedulerState) :
    List CompletionRecord × SchedulerState :=
  (s.completed, { s with completed := [] })

/-- Scheduler invariant: no duplicate in-flight ids, no duplicate queued
completion ids, and no id both in flight and queued. -/
def SchedInv (s : SchedulerState) : Prop :=
  s.inFlight.Nodup ∧ (s.completed.map CompletionRecord.handleId).Nodup ∧
    ∀ i ∈ s.inFlight, i ∉ s.completed.map CompletionRecord.handleId

instance (s : SchedulerState) : Decidable (SchedInv s) := by
  unfold SchedInv
  infer_instance

/-- A concrete oracle used to evaluate the shim at specific inputs: its
curl_multi_info_read yields a message of kind 1 for easy handle 42 with
result code 7, and reports 5 further messages in the queue. -/
def cexApi : CurlApi where
  curl_global_init := fun _ => 0
  curl_easy_init := 11
  curl_easy_cleanup := fun _ => ()
  curl_easy_reset := fun _ => ()
  curl_easy_setopt := fun _ _ _ => 0
  curl_easy_perform := fun _ => 0
  curl_easy_getinfo := fun _ _ _ => 0
  curl_easy_strerror := fun _ => ""
  curl_slist_append := fun _ _ => none
  curl_slist_free_all := fun _ => ()
  curl_easy_impersonate := fun _ _ _ => 0
  curl_multi_init := 21
  curl_multi_cleanup := fun _ => 0
  curl_multi_add_handle := fun _ _ => 0
  curl_multi_remove_handle := fun _ _ => 0
  curl_multi_perform := fun _ _ => 0
  curl_multi_poll := fun _ _ _ _ _ => 0
  curl_multi_info_read := fun _ => (some ⟨1, 42, 7⟩, 5)
  curl_multi_wakeup := fun _ => 0
  curl_multi_strerror := fun _ => ""

/-- A concrete oracle whose curl_multi_info_read yields no message. -/
def emptyApi : CurlApi :=
  { cexApi with curl_multi_info_read := fun _ => (none, 0) }

/-- An all-zero caller heap for concrete evaluations. -/
def zeroHeap : Heap where
  ints := fun _ => 0
  ptrs := fun _ => 0
  codes := fun _ => 0

/-!
Helper lemmas about the typed heap stores and the two branches of
bsn_curl_multi_info_read.
-/

theorem writeInt_none (h : Heap) (v : Int) : writeInt h none v = h := rfl

theorem writeInt_ints_some (h : Heap) (a : Nat) (v : Int) (x : Nat) :
    (writeInt h (some a) v).ints x = if x = a then v else h.ints x := rfl

theorem writePtr_ptrs_some (h : Heap) (a : Nat) (v : Nat) (x : Nat) :
    (writePtr h (some a) v).ptrs x = if x = a then v else h.ptrs x := rfl

theorem writeCode_codes_some (h : Heap) (a : Nat) (v : Nat) (x : Nat) :
    (writeCode h (some a) v).codes x = if x = a then v else h.codes x := rfl

@[simp] theorem writeInt_ptrs (h : Heap) (p : Option Nat) (v : Int) :
    (writeInt h p v).ptrs = h.ptrs := by cases p <;> rfl

@[simp] theorem writeInt_codes (h : Heap) (p : Option Nat) (v : Int) :
    (writeInt h p v).codes = h.codes := by cases p <;> rfl

@[simp] theorem writePtr_ints (h : Heap) (p : Option Nat) (v : Nat) :
    (writePtr h p v).ints = h.ints := by cases p <;> rfl

@[simp] theorem writePtr_codes (h : Heap) (p : Option Nat) (v : Nat) :
    (writePtr h p v).codes = h.codes := by cases p <;> rfl

@[simp] theorem writeCode_ints (h : Heap) (p : Option Nat) (v : Nat) :
    (writeCode h p v).ints = h.ints := by cases p <;> rfl

@[simp] theorem writeCode_ptrs (h : Heap) (p : Option Nat) (v : Nat) :
    (writeCode h p v).ptrs = h.ptrs := by cases p <;> rfl

theorem info_read_eq_none (api : CurlApi) (mh : Nat)
    (q msg eh res : Option Nat) (h : Heap)
    (hm : (api.curl_multi_info_read mh).1 = none) :
    bsn_curl_multi_info_read api mh q msg eh res h =
      (0, writeInt h q (api.curl_multi_info_read mh).2) := by
  simp [bsn_curl_multi_info_read, hm]

theorem info_read_eq_some (api : CurlApi) (mh : Nat)
    (q msg eh res : Option Nat) (h : Heap) (m : CURLMsg)
    (hm : (api.curl_multi_info_read mh).1 = some m) :
    bsn_curl_multi_info_read api mh q msg eh res h =
      (1, writeCode
            (writePtr
              (writeInt (writeInt h q (api.curl_multi_info_read mh).2) msg
                (Int.ofNat m.msg))
              eh m.easy_handle)
            res m.result) := by
  simp [bsn_curl_multi_info_read, hm]

/-- C3: bsn_curl_multi_poll(multi, timeout_ms, numfds) is exactly
curl_multi_poll(multi, NULL, 0, timeout_ms, numfds): the wait always runs
over the multi handle's own in-flight sockets with an empty
caller-supplied extra-fd set. -/
theorem bsn_curl_multi_poll_wraps_empty_extra_fds (api : CurlApi)
    (multi_handle : Nat) (timeout_ms : Int) (numfds : Option Nat) :
    bsn_curl_multi_poll api multi_handle timeout_ms numfds =
      api.curl_multi_poll multi_handle none 0 timeout_ms numfds := rfl

/-- C2: bsn_curl_multi_info_read returns 1 exactly when the wrapped
curl_multi_info_read yields a message, returns 0 when it yields none, and
on the 1 path stores the message kind (cast to int), the easy handle and
the result code through each output pointer that is non-NULL. -/
theorem bsn_curl_multi_info_read_spec (api : CurlApi) (mh : Nat)
    (q msg eh res : Option Nat) (h : Heap) :
    ((bsn_curl_multi_info_read api mh q msg eh res h).1 = 1 ↔
      ((api.curl_multi_info_read mh).1).isSome = true) ∧
    ((api.curl_multi_info_read mh).1 = none →
      (bsn_curl_multi_info_read api mh q msg eh res h).1 = 0) ∧
    (∀ m : CURLMsg, (api.curl_multi_info_read mh).1 = some m →
      (∀ a : Nat, msg = some a →
        (bsn_curl_multi_info_read api mh q msg eh res h).2.ints a =
          Int.ofNat m.msg) ∧
      (∀ a : Nat, eh = some a →
        (bsn_curl_multi_info_read api mh q msg eh res h).2.ptrs a =
          m.easy_handle) ∧
      (∀ a : Nat, res = some a →
        (bsn_curl_multi_info_read api mh q msg eh res h).2.codes a =
          m.result)) := by
  cases hm : (api.curl_multi_info_read mh).1 with
  | none =>
      rw [info_read_eq_none api mh q msg eh res h hm]
      simp [hm]
  | some m =>
      rw [info_read_eq_some api mh q msg eh res h m hm]
      refine ⟨by simp [hm], by simp, ?_⟩
      intro m' hm'
      have hmm : m = m' := Option.some.inj hm'
      subst hmm
      refine ⟨?_, ?_, ?_⟩
      · intro a ha
        subst ha
        simp [writeInt_ints_some]
      · intro a ha
        subst ha
        simp [writePtr_ptrs_some]
      · intro a ha
        subst ha
        simp [writeCode_codes_some]

/-- C2 witness: at the concrete oracle whose queue holds a message of kind
1 for easy handle 42 with result 7, the shim returns 1 and stores 1, 42
and 7 through the three output pointers. -/
theorem bsn_curl_multi_info_read_spec_witness :
    (cexApi.curl_multi_info_read 0).1 = some ⟨1, 42, 7⟩ ∧
    (bsn_curl_multi_info_read cexApi 0 none (some 0) (some 1) (some 2)
      zeroHeap).2.ints 0 = 1 ∧
    (bsn_curl_multi_info_read cexApi 0 none (some 0) (some 1) (some 2)
      zeroHeap).2.ptrs 1 = 42 ∧
    (bsn_curl_multi_info_read cexApi 0 none (some 0) (some 1) (some 2)
      zeroHeap).2.codes 2 = 7 := by
  have hs := (bsn_curl_multi_info_read_spec cexApi 0 none (some 0) (some 1)
    (some 2) zeroHeap).2.2 ⟨1, 42, 7⟩ rfl
  exact ⟨rfl, hs.1 0 rfl, hs.2.1 1 rfl, hs.2.2 2 rfl⟩

/-- C5: with any combination of NULL output pointers, the shim is still
well defined (the embedding is total, each store is guarded), still
returns 1 when a message is available, and skips exactly the stores whose
pointer is NULL: a NULL msg leaves the int store as the wrapped call left
it, a NULL easy_handle leaves the pointer store untouched, a NULL result
leaves the code store untouched. -/
theorem bsn_curl_multi_info_read_null_safe (api : CurlApi) (mh : Nat)
    (q msg eh res : Option Nat) (h : Heap)
    (hm : ((api.curl_multi_info_read mh).1).isSome = true) :
    (bsn_curl_multi_info_read api mh q msg eh res h).1 = 1 ∧
    (msg = none →
      (bsn_curl_multi_info_read api mh q msg eh res h).2.ints =
        (writeInt h q (api.curl_multi_info_read mh).2).ints) ∧
    (eh = none →
      (bsn_curl_multi_info_read api mh q msg eh res h).2.ptrs = h.ptrs) ∧
    (res = none →
      (bsn_curl_multi_info_read api mh q msg eh res h).2.codes = h.codes) := by
  obtain ⟨m, hm'⟩ := Option.isSome_iff_exists.mp hm
  rw [info_read_eq_some api mh q msg eh res h m hm']
  refine ⟨rfl, ?_, ?_, ?_⟩
  · intro hmsg
    subst hmsg
    simp [writeInt_none]
  · intro heh
    subst heh
    simp [writePtr]
  · intro hres
    subst hres
    simp [writeCode]

/-- C5 witness: with all three output pointers NULL and a pending message,
the shim still returns 1 and performs no store at all. -/
theorem bsn_curl_multi_info_read_null_safe_witness :
    ((cexApi.curl_multi_info_read 0).1).isSome = true ∧
    (bsn_curl_multi_info_read cexApi 0 none none none none zeroHeap).1 = 1 ∧
    (bsn_curl_multi_info_read cexApi 0 none none none none
      zeroHeap).2.codes = zeroHeap.codes := by
  have hs := bsn_curl_multi_info_read_null_safe cexApi 0 none none none none
    zeroHeap rfl
  exact ⟨rfl, hs.1, hs.2.2.2 rfl⟩

/-- C6: when the wrapped curl_multi_info_read yields no message the shim
returns 0 and its whole effect is the wrapped call's own write of
*msgs_in_queue: the pointer and code stores are untouched, and the int
slot named by msg is unchanged whenever it is not aliased with the
msgs_in_queue out-parameter that the wrapped call itself writes. -/
theorem bsn_curl_multi_info_read_no_message_frame (api : CurlApi)
    (mh : Nat) (q msg eh res : Option Nat) (h : Heap)
    (hm : (api.curl_multi_info_read mh).1 = none) :
    bsn_curl_multi_info_read api mh q msg eh res h =
      (0, writeInt h q (api.curl_multi_info_read mh).2) ∧
    (bsn_curl_multi_info_read api mh q msg eh res h).2.ptrs = h.ptrs ∧
    (bsn_curl_multi_info_read api mh q msg eh res h).2.codes = h.codes ∧
    (∀ a : Nat, msg = some a → q ≠ some a →
      (bsn_curl_multi_info_read api mh q msg eh res h).2.ints a = h.ints a) := by
  rw [info_read_eq_none api mh q msg eh res h hm]
  refine ⟨rfl, by simp, by simp, ?_⟩
  intro a _ hqa
  cases hq : q with
  | none => simp [writeInt_none]
  | some b =>
      rw [hq] at hqa
      have hab : a ≠ b := fun hab => hqa (by rw [hab])
      simp [writeInt_ints_some, hab]

/-- C6 witness: at an oracle with an empty message queue, the shim returns
0 and leaves the caller's heap entirely untouched. -/
theorem bsn_curl_multi_info_read_no_message_frame_witness :
    (emptyApi.curl_multi_info_read 0).1 = none ∧
    bsn_curl_multi_info_read emptyApi 0 none (some 0) (some 0) (some 0)
      zeroHeap = (0, writeInt zeroHeap none 0) ∧
    (bsn_curl_multi_info_read emptyApi 0 none (some 0) (some 0) (some 0)
      zeroHeap).2.ints 0 = zeroHeap.ints 0 := by
  have hs := bsn_curl_multi_info_read_no_message_frame emptyApi 0 none
    (some 0) (some 0) (some 0) zeroHeap rfl
  exact ⟨rfl, hs.1, hs.2.2.2 0 rfl (by simp)⟩

theorem info_read_elim (api : CurlApi) (mh : Nat)
    (q msg eh res : Option Nat) (h : Heap) :
    bsn_curl_multi_info_read api mh q msg eh res h =
      ((api.curl_multi_info_read mh).1).elim
        (0, writeInt h q (api.curl_multi_info_read mh).2)
        (fun m =>
          (1, writeCode
                (writePtr
                  (writeInt (writeInt h q (api.curl_multi_info_read mh).2)
                    msg (Int.ofNat m.msg))
                  eh m.easy_handle)
                res m.result)) := by
  cases hm : (api.curl_multi_info_read mh).1 with
  | none => rw [info_read_eq_none api mh q msg eh res h hm]; rfl
  | some m => rw [info_read_eq_some api mh q msg eh res h m hm]; rfl

/-- C1 counterexample: at a concrete oracle, NULL msgs_in_queue, a non-NULL
msg pointer and an all-zero heap, bsn_curl_multi_info_read performs a store
of its own (the int slot at address 0 changes although the wrapped call,
whose only out-parameter here is NULL, writes nothing) and returns the
computed availability flag 1 instead of the wrapped function's returned
message — so not every export is a pure argument-preserving forward with
no additional computation or control flow. -/
theorem bsn_curl_multi_info_read_not_a_pure_forward :
    (bsn_curl_multi_info_read cexApi 0 none (some 0) none none zeroHeap).1 = 1 ∧
    (bsn_curl_multi_info_read cexApi 0 none (some 0) none none
      zeroHeap).2.ints 0 ≠ zeroHeap.ints 0 := by
  constructor
  · rfl
  · decide

/-- C1 amended: every exported bsn_* function except bsn_curl_multi_poll
and bsn_curl_multi_info_read returns exactly the corresponding wrapped
curl_* function applied to its own arguments unchanged;
bsn_curl_multi_poll forwards with the fixed extra-fd arguments NULL and 0
inserted; bsn_curl_multi_info_read adapts the wrapped reader's message
into a 0 or 1 availability flag together with the NULL-guarded
out-parameter stores of the message fields. -/
theorem bsn_shim_forwarding (api : CurlApi) :
    (∀ flags, bsn_curl_global_init api flags = api.curl_global_init flags) ∧
    (bsn_curl_easy_init api = api.curl_easy_init) ∧
    (∀ e, bsn_curl_easy_cleanup api e = api.curl_easy_cleanup e) ∧
    (∀ e, bsn_curl_easy_reset api e = api.curl_easy_reset e) ∧
    (∀ e o v, bsn_curl_easy_setopt_long api e o v =
      api.curl_easy_setopt e o (.ofLong v)) ∧
    (∀ e o v, bsn_curl_easy_setopt_ptr api e o v =
      api.curl_easy_setopt e o (.ofPtr v)) ∧
    (∀ e o v, bsn_curl_easy_setopt_str api e o v =
      api.curl_easy_setopt e o (.ofStr v)) ∧
    (∀ e o f, bsn_curl_easy_setopt_write_callback api e o f =
      api.curl_easy_setopt e o (.ofWriteCallback f)) ∧
    (∀ e o f, bsn_curl_easy_setopt_xferinfo_callback api e o f =
      api.curl_easy_setopt e o (.ofXferinfoCallback f)) ∧
    (∀ e, bsn_curl_easy_perform api e = api.curl_easy_perform e) ∧
    (∀ e i v, bsn_curl_easy_getinfo_long api e i v =
      api.curl_easy_getinfo e i v) ∧
    (∀ c, bsn_curl_easy_strerror api c = api.curl_easy_strerror c) ∧
    (∀ l s, bsn_curl_slist_append api l s = api.curl_slist_append l s) ∧
    (∀ l, bsn_curl_slist_free_all api l = api.curl_slist_free_all l) ∧
    (∀ e t d, bsn_curl_easy_impersonate api e t d =
      api.curl_easy_impersonate e t d) ∧
    (bsn_curl_multi_init api = api.curl_multi_init) ∧
    (∀ m, bsn_curl_multi_cleanup api m = api.curl_multi_cleanup m) ∧
    (∀ m e, bsn_curl_multi_add_handle api m e =
      api.curl_multi_add_handle m e) ∧
    (∀ m e, bsn_curl_multi_remove_handle api m e =
      api.curl_multi_remove_handle m e) ∧
    (∀ m r, bsn_curl_multi_perform api m r = api.curl_multi_perform m r) ∧
    (∀ m, bsn_curl_multi_wakeup api m = api.curl_multi_wakeup m) ∧
    (∀ c, bsn_curl_multi_strerror api c = api.curl_multi_strerror c) ∧
    (∀ m t n, bsn_curl_multi_poll api m t n =
      api.curl_multi_poll m none 0 t n) ∧
    (∀ mh q msg eh res h, bsn_curl_multi_info_read api mh q msg eh res h =
      ((api.curl_multi_info_read mh).1).elim
        (0, writeInt h q (api.curl_multi_info_read mh).2)
        (fun m =>
          (1, writeCode
                (writePtr
                  (writeInt (writeInt h q (api.curl_multi_info_read mh).2)
                    msg (Int.ofNat m.msg))
                  eh m.easy_handle)
                res m.result))) :=
  ⟨fun _ => rfl, rfl, fun _ => rfl, fun _ => rfl,
   fun _ _ _ => rfl, fun _ _ _ => rfl, fun _ _ _ => rfl,
   fun _ _ _ => rfl, fun _ _ _ => rfl, fun _ => rfl,
   fun _ _ _ => rfl, fun _ => rfl, fun _ _ => rfl, fun _ => rfl,
   fun _ _ _ => rfl, rfl, fun _ => rfl, fun _ _ => rfl, fun _ _ => rfl,
   fun _ _ => rfl, fun _ => rfl, fun _ => rfl, fun _ _ _ => rfl,
   fun mh q msg eh res h => info_read_elim api mh q msg eh res h⟩

/-- C4: the embedding of every shim entry point is a total function — no
abort, longjmp or exception can cross the boundary — whose outcome is its
returned status value: the transfer and multi entry points return exactly
the wrapped library's CURLcode or CURLMcode, bsn_curl_multi_info_read
returns only the availability flag 0 or 1, and a completed transfer's
error code reaches the caller solely through the result out-parameter
slot written by bsn_curl_multi_info_read. -/
theorem shim_errors_surface_as_return_values (api : CurlApi) :
    (∀ e, bsn_curl_easy_perform api e = api.curl_easy_perform e) ∧
    (∀ mh r, bsn_curl_multi_perform api mh r = api.curl_multi_perform mh r) ∧
    (∀ mh t n, bsn_curl_multi_poll api mh t n =
      api.curl_multi_poll mh none 0 t n) ∧
    (∀ mh, bsn_curl_multi_wakeup api mh = api.curl_multi_wakeup mh) ∧
    (∀ mh q msg eh res h,
      (bsn_curl_multi_info_read api mh q msg eh res h).1 = 0 ∨
      (bsn_curl_multi_info_read api mh q msg eh res h).1 = 1) ∧
    (∀ mh q msg eh a h,
      (bsn_curl_multi_info_read api mh q msg eh (some a) h).2.codes a =
        ((api.curl_multi_info_read mh).1).elim (h.codes a)
          (fun m => m.result)) := by
  refine ⟨fun _ => rfl, fun _ _ => rfl, fun _ _ _ => rfl, fun _ => rfl,
    ?_, ?_⟩
  · intro mh q msg eh res h
    cases hm : (api.curl_multi_info_read mh).1 with
    | none => exact Or.inl (by rw [info_read_eq_none api mh q msg eh res h hm])
    | some m => exact Or.inr (by rw [info_read_eq_some api mh q msg eh res h m hm])
  · intro mh q msg eh a h
    cases hm : (api.curl_multi_info_read mh).1 with
    | none =>
        rw [info_read_eq_none api mh q msg eh (some a) h hm]
        simp
    | some m =>
        rw [info_read_eq_some api mh q msg eh (some a) h m hm]
        simp [writeCode_codes_some]

/-- A concrete profile used to evaluate the registry at specific inputs. -/
def chromeProfile : IdentityProfile where
  name := "chrome-120"
  tlsCipherSuites := [1, 2, 3]
  tlsExtensionOrder := [4, 5]
  alpnProtocols := ["h2", "http/1.1"]
  defaultHeaders := [("user-agent", "chrome")]

/-- C8: after a successful registration of p, lookup of p.name returns
exactly the registered profile; registering any profile with the same
name fails with DuplicateProfile (and, the registry being immutable on
failure, the first registration stays intact); lookup of a name no
registered profile bears fails with UnknownProfile. -/
theorem registry_contract (r r' : Registry) (p : IdentityProfile)
    (hreg : Registry.register r p = .ok r') :
    Registry.lookup r' p.name = .ok p ∧
    (∀ q : IdentityProfile, q.name = p.name →
      Registry.register r' q = .error RegistryError.DuplicateProfile) ∧
    (∀ n : String, (∀ pr ∈ r', pr.name ≠ n) →
      Registry.lookup r' n = .error RegistryError.UnknownProfile) := by
  unfold Registry.register at hreg
  by_cases hany : (List.any r fun q => q.name == p.name) = true
  · rw [if_pos hany] at hreg
    exact absurd hreg (by simp)
  · rw [if_neg hany] at hreg
    have hr' : r' = r ++ [p] := (Except.ok.inj hreg).symm
    subst hr'
    have hnone : List.find? (fun q => q.name == p.name) r = none := by
      refine List.find?_eq_none.mpr ?_
      intro x hx hbeq
      exact hany (List.any_eq_true.mpr ⟨x, hx, hbeq⟩)
    refine ⟨?_, ?_, ?_⟩
    · unfold Registry.lookup
      rw [List.find?_append, hnone]
      simp [List.find?]
    · intro q hq
      unfold Registry.register
      have hmem : p ∈ r ++ [p] := by simp
      have hq' : (List.any (r ++ [p]) fun x => x.name == q.name) = true :=
        List.any_eq_true.mpr ⟨p, hmem, by rw [hq]; simp⟩
      rw [if_pos hq']
    · intro n hno
      unfold Registry.lookup
      have hfind : List.find? (fun q => q.name == n) (r ++ [p]) = none := by
        refine List.find?_eq_none.mpr ?_
        intro x hx hbeq
        exact hno x hx (eq_of_beq hbeq)
      rw [hfind]

/-- C8 witness: registering the chrome-120 profile into the empty registry
succeeds; its lookup returns the registered profile, a second
registration under the same name fails with DuplicateProfile, and lookup
of an unregistered name fails with UnknownProfile. -/
theorem registry_contract_witness :
    Registry.register ([] : Registry) chromeProfile = .ok [chromeProfile] ∧
    Registry.lookup [chromeProfile] chromeProfile.name = .ok chromeProfile ∧
    Registry.register [chromeProfile] chromeProfile =
      .error RegistryError.DuplicateProfile ∧
    Registry.lookup [chromeProfile] "firefox-115" =
      .error RegistryError.UnknownProfile := by
  have h := registry_contract [] [chromeProfile] chromeProfile (by rfl)
  refine ⟨rfl, h.1, h.2.1 chromeProfile rfl, h.2.2 "firefox-115" ?_⟩
  intro pr hpr
  have hpr' : pr = chromeProfile := by simpa using hpr
  subst hpr'
  decide

theorem map_handleId_mk (results : Nat → Nat × Option String) (l : List Nat) :
    List.map CompletionRecord.handleId
      (List.map (fun i => (⟨i, (results i).1, (results i).2⟩ : CompletionRecord)) l) = l := by
  induction l with
  | nil => rfl
  | cons a t ih => simp only [List.map_cons] at ih ⊢; rw [ih]

theorem mem_readyThisRound (s : SchedulerState) (ready : List Nat) (i : Nat) :
    i ∈ readyThisRound s ready ↔ i ∈ s.inFlight ∧ i ∈ ready := by
  unfold readyThisRound
  rw [(List.perm_insertionSort _ _).mem_iff, List.mem_filter]
  simp

theorem readyThisRound_nodup (s : SchedulerState) (ready : List Nat)
    (h : s.inFlight.Nodup) : (readyThisRound s ready).Nodup :=
  (List.perm_insertionSort _ _).symm.nodup (h.filter _)

theorem readyThisRound_sorted (s : SchedulerState) (ready : List Nat) :
    List.Sorted (fun a b => a ≤ b) (readyThisRound s ready) :=
  List.sorted_insertionSort _ _

/-- C9: one pumpOnce or wait round preserves the scheduler invariant,
appends the records of the handles that became ready this round to the
completion queue in readiness-detection order with simultaneous
completions in ascending handle-id order, and drainCompletions then
returns the whole queue exactly once: the drained ids repeat nowhere in
the drained sequence, the queue is left empty, and no drained id is still
in flight, so no later round can produce a second record for it. -/
theorem scheduler_pump_drain (results : Nat → Nat × Option String)
    (ready : List Nat) (s : SchedulerState) (hinv : SchedInv s) :
    SchedInv (pumpOnce results ready s) ∧
    (pumpOnce results ready s).completed =
      s.completed ++
        List.map (fun i => ⟨i, (results i).1, (results i).2⟩)
          (readyThisRound s ready) ∧
    List.Sorted (fun a b => a ≤ b)
      (List.map CompletionRecord.handleId
        (List.map (fun i => (⟨i, (results i).1, (results i).2⟩ : CompletionRecord))
          (readyThisRound s ready))) ∧
    (drainCompletions (pumpOnce results ready s)).1 =
      (pumpOnce results ready s).completed ∧
    (drainCompletions (pumpOnce results ready s)).2.completed = [] ∧
    (List.map CompletionRecord.handleId
      (drainCompletions (pumpOnce results ready s)).1).Nodup ∧
    (∀ rec ∈ (drainCompletions (pumpOnce results ready s)).1,
      rec.handleId ∉ (drainCompletions (pumpOnce results ready s)).2.inFlight) := by
  obtain ⟨hfl, hcmp, hdisj⟩ := hinv
  have hidsnew :
      List.map CompletionRecord.handleId
        (List.map (fun i => (⟨i, (results i).1, (results i).2⟩ : CompletionRecord))
          (readyThisRound s ready)) = readyThisRound s ready :=
    map_handleId_mk results _
  have hcompleted' :
      List.map CompletionRecord.handleId (pumpOnce results ready s).completed =
        List.map CompletionRecord.handleId s.completed ++ readyThisRound s ready := by
    show List.map CompletionRecord.handleId (s.completed ++ _) = _
    rw [List.map_append, hidsnew]
  have hnodup' :
      (List.map CompletionRecord.handleId (pumpOnce results ready s).completed).Nodup := by
    rw [hcompleted', List.nodup_append]
    refine ⟨hcmp, readyThisRound_nodup s ready hfl, ?_⟩
    intro a ha hr
    have hmem := (mem_readyThisRound s ready a).mp hr
    exact hdisj a hmem.1 ha
  refine ⟨⟨hfl.filter _, hnodup', ?_⟩, rfl, ?_, rfl, rfl, hnodup', ?_⟩
  · intro i hi
    rw [hcompleted', List.mem_append]
    have hi' : i ∈ List.filter (fun j => decide (j ∉ ready)) s.inFlight := hi
    rw [List.mem_filter] at hi'
    have hnr : i ∉ ready := by simpa using hi'.2
    rintro (hold | hnew)
    · exact hdisj i hi'.1 hold
    · exact hnr ((mem_readyThisRound s ready i).mp hnew).2
  · rw [hidsnew]
    exact readyThisRound_sorted s ready
  · intro rec hrec hflight
    have hrec' : rec ∈ s.completed ++
        List.map (fun i => (⟨i, (results i).1, (results i).2⟩ : CompletionRecord))
          (readyThisRound s ready) := hrec
    have hflight' : rec.handleId ∈
        List.filter (fun j => decide (j ∉ ready)) s.inFlight := hflight
    rw [List.mem_filter] at hflight'
    have hnr : rec.handleId ∉ ready := by simpa using hflight'.2
    rcases List.mem_append.mp hrec' with hold | hnew
    · exact hdisj rec.handleId hflight'.1
        (List.mem_map.mpr ⟨rec, hold, rfl⟩)
    · obtain ⟨i, hi, hieq⟩ := List.mem_map.mp hnew
      have hid : rec.handleId = i := by rw [← hieq]
      rw [hid] at hnr
      exact hnr ((mem_readyThisRound s ready i).mp hi).2

/-- C9 witness: the spec scenario — three handles in flight, the fake
transport marks handles 3 and 2 ready simultaneously on the first round —
satisfies the invariant, and the drained sequence lists handle 2 before
handle 3 (ascending id tie-break). -/
theorem scheduler_pump_drain_witness :
    SchedInv ⟨[1, 2, 3], []⟩ ∧
    SchedInv (pumpOnce (fun _ => (0, none)) [3, 2] ⟨[1, 2, 3], []⟩) ∧
    (drainCompletions (pumpOnce (fun _ => (0, none)) [3, 2] ⟨[1, 2, 3], []⟩)).1 =
      [⟨2, 0, none⟩, ⟨3, 0, none⟩] := by
  refine ⟨by decide, (scheduler_pump_drain (fun _ => (0, none)) [3, 2]
    ⟨[1, 2, 3], []⟩ (by decide)).1, by decide⟩
